import Mathlib

/-!
Shallow embedding of the `urich-core` request dispatch core
(`src/urich-core/src/{router,schema,lib,application,http,asgi}.rs`).

Conventions of the embedding:
* Rust `Vec<u8>` byte buffers (request/response bodies, payloads) are modelled
  as Lean `String` (the development only exercises UTF-8 bodies).
* Rust `HashMap` tables are modelled as association lists with
  insert-overwrite semantics; `serde_json`'s `Map` (a `BTreeMap` under the
  default feature set) is modelled as a key-sorted association list.
* `serde_json` is an external dependency of the crate; it is modelled by an
  executable JSON value type, renderer and parser below, restricted to the
  integer fragment of JSON (no floating-point literals).  None of the
  verified properties depend on the number grammar.
* Effectful (`async`) closures are modelled as pure functions; where a claim
  speaks about *invocations* (event publish), the embedding additionally
  returns the trace of calls that the Rust loop performs.
-/

/-- The `str::trim_start_matches('/')`: drop leading `'/'` characters. -/
def trimLeadingSlashes (s : String) : String :=
  ⟨s.data.dropWhile (· == '/')⟩

/-- The `str::trim_matches('/')`: drop leading and trailing `'/'` characters. -/
def trimSlashesBoth (s : String) : String :=
  ⟨((s.data.dropWhile (· == '/')).reverse.dropWhile (· == '/')).reverse⟩

/-- ASCII upper-casing of one character (the method strings this crate
compares are ASCII; Rust's Unicode `to_uppercase` agrees there). -/
def asciiUpperChar (c : Char) : Char :=
  if 'a' ≤ c && c ≤ 'z' then Char.ofNat (c.toNat - 32) else c

/-- ASCII lower-casing of one character. -/
def asciiLowerChar (c : Char) : Char :=
  if 'A' ≤ c && c ≤ 'Z' then Char.ofNat (c.toNat + 32) else c

/-- The `str::to_uppercase` (ASCII fragment). -/
def strToUpper (s : String) : String := ⟨s.data.map asciiUpperChar⟩

/-- The `str::to_lowercase` (ASCII fragment). -/
def strToLower (s : String) : String := ⟨s.data.map asciiLowerChar⟩

/-- The `HashMap::insert`: overwrite the binding of `k` if present, else append. -/
def insertOv {α β : Type} [BEq α] (k : α) (v : β) : List (α × β) → List (α × β)
  | [] => [(k, v)]
  | (k', v') :: rest => if k' == k then (k, v) :: rest else (k', v') :: insertOv k v rest

/-- Byte-wise (= code-point-wise for valid UTF-8) string order, as used by
`BTreeMap<String, _>` keys in `serde_json`'s map type. -/
def charListLt : List Char → List Char → Bool
  | [], [] => false
  | [], _ :: _ => true
  | _ :: _, [] => false
  | a :: as, b :: bs => if a < b then true else if b < a then false else charListLt as bs

def strLt (a b : String) : Bool := charListLt a.data b.data

/-! ## JSON values (model of `serde_json::Value`) -/

/-- Model of `serde_json::Value`, restricted to integer numbers.  Objects are
kept as key-sorted association lists, mirroring the `BTreeMap` backing of
`serde_json::Map` under the crate's default features. -/
inductive Json where
  | null
  | bool (b : Bool)
  | num (n : Int)
  | str (s : String)
  | arr (elems : List Json)
  | obj (fields : List (String × Json))
deriving Inhabited

namespace Json

/-- The `BTreeMap::insert` into a key-sorted association list (overwriting). -/
def sortInsertField (k : String) (v : Json) : List (String × Json) → List (String × Json)
  | [] => [(k, v)]
  | (k', v') :: rest =>
    if strLt k k' then (k, v) :: (k', v') :: rest
    else if k == k' then (k, v) :: rest
    else (k', v') :: sortInsertField k v rest

/-- Build a `serde_json::Map` (sorted) from fields given in insertion order. -/
def mkObj (fields : List (String × Json)) : Json :=
  .obj (fields.foldl (fun acc kv => sortInsertField kv.1 kv.2 acc) [])

/-- The `Value::get(key)` on an object (`None` on any other variant). -/
def getField? (j : Json) (k : String) : Option Json :=
  match j with
  | .obj fields => fields.lookup k
  | _ => none

/-- The `Value::as_str`. -/
def asStr? : Json → Option String
  | .str s => some s
  | _ => none

def hexDigitLower (n : Nat) : Char :=
  if n < 10 then Char.ofNat (48 + n) else Char.ofNat (87 + n)

/-- The `serde_json` string escaping: `"` and `\` are escaped, control characters
use the short forms `\b \f \n \r \t` or `\u00XX`. -/
def escapeChar (c : Char) : String :=
  if c == '"' then "\\\""
  else if c == '\\' then "\\\\"
  else if c == Char.ofNat 8 then "\\b"
  else if c == Char.ofNat 12 then "\\f"
  else if c == '\n' then "\\n"
  else if c == '\r' then "\\r"
  else if c == '\t' then "\\t"
  else if c.toNat < 32 then
    "\\u00" ++ String.singleton (hexDigitLower (c.toNat / 16))
      ++ String.singleton (hexDigitLower (c.toNat % 16))
  else String.singleton c

/-- Render a JSON string literal (with quotes), as `serde_json` does. -/
def renderString (s : String) : String :=
  "\"" ++ String.join (s.data.map escapeChar) ++ "\""

mutual
/-- Compact rendering, as `serde_json::to_vec` / `to_string` produce. -/
def render : Json → String
  | .null => "null"
  | .bool true => "true"
  | .bool false => "false"
  | .num n => toString n
  | .str s => renderString s
  | .arr es => "[" ++ renderArr es ++ "]"
  | .obj fields => "\x7b" ++ renderObj fields ++ "\x7d"

def renderArr : List Json → String
  | [] => ""
  | [e] => render e
  | e :: e' :: es => render e ++ "," ++ renderArr (e' :: es)

def renderObj : List (String × Json) → String
  | [] => ""
  | [(k, v)] => renderString k ++ ":" ++ render v
  | (k, v) :: kv :: fields => renderString k ++ ":" ++ render v ++ "," ++ renderObj (kv :: fields)
end

end Json

/-! ### JSON parser (model of `serde_json::from_slice`) -/

namespace JsonParse

def isWsChar (c : Char) : Bool := c == ' ' || c == '\n' || c == '\t' || c == '\r'

def skipWs : List Char → List Char
  | c :: cs => if isWsChar c then skipWs cs else c :: cs
  | [] => []

def isDigitChar (c : Char) : Bool := '0' ≤ c && c ≤ '9'

def takeDigits : List Char → List Char × List Char
  | c :: cs =>
    if isDigitChar c then
      let (ds, rest) := takeDigits cs
      (c :: ds, rest)
    else ([], c :: cs)
  | [] => ([], [])

def digitsVal (ds : List Char) : Nat :=
  ds.foldl (fun acc c => acc * 10 + (c.toNat - 48)) 0

def hexVal (c : Char) : Option Nat :=
  let n := c.toNat
  if 48 ≤ n && n ≤ 57 then some (n - 48)
  else if 65 ≤ n && n ≤ 70 then some (n - 55)
  else if 97 ≤ n && n ≤ 102 then some (n - 87)
  else none

/-- Parse the body of a JSON string literal (opening quote already consumed). -/
def parseStringBody : List Char → Option (String × List Char)
  | [] => none
  | c :: cs =>
    if c == '"' then some ("", cs)
    else if c == '\\' then
      match cs with
      | [] => none
      | e :: cs' =>
        let simpleEsc : Option Char :=
          if e == '"' then some '"'
          else if e == '\\' then some '\\'
          else if e == '/' then some '/'
          else if e == 'b' then some (Char.ofNat 8)
          else if e == 'f' then some (Char.ofNat 12)
          else if e == 'n' then some '\n'
          else if e == 'r' then some '\r'
          else if e == 't' then some '\t'
          else none
        match simpleEsc with
        | some d =>
          match parseStringBody cs' with
          | some (s, rest) => some (String.singleton d ++ s, rest)
          | none => none
        | none =>
          if e == 'u' then
            match cs' with
            | h1 :: h2 :: h3 :: h4 :: cs'' =>
              match hexVal h1, hexVal h2, hexVal h3, hexVal h4 with
              | some a, some b, some c3, some d =>
                let code := ((a * 16 + b) * 16 + c3) * 16 + d
                match parseStringBody cs'' with
                | some (s, rest) => some (String.singleton (Char.ofNat code) ++ s, rest)
                | none => none
              | _, _, _, _ => none
            | _ => none
          else none
    else if c.toNat < 32 then none
    else
      match parseStringBody cs with
      | some (s, rest) => some (String.singleton c ++ s, rest)
      | none => none

/-- Parse a JSON number token.  The model accepts the integer grammar
(`-? (0 | [1-9][0-9]*)`) and treats a following `.`/`e`/`E` (a float literal)
as unparsable, restricting the model of `serde_json` to the integer fragment. -/
def parseNumber (cs : List Char) : Option (Json × List Char) :=
  let (neg, cs') := match cs with
    | c :: rest => if c == '-' then (true, rest) else (false, cs)
    | [] => (false, [])
  match takeDigits cs' with
  | ([], _) => none
  | (ds, rest) =>
    if ds.length > 1 && ds.headD '0' == '0' then none
    else
      match rest with
      | c :: _ =>
        if c == '.' || c == 'e' || c == 'E' then none
        else
          let v : Int := (digitsVal ds : Nat)
          some (.num (if neg then -v else v), rest)
      | [] =>
        let v : Int := (digitsVal ds : Nat)
        some (.num (if neg then -v else v), [])

mutual
def parseValue : Nat → List Char → Option (Json × List Char)
  | 0, _ => none
  | fuel + 1, cs =>
    match skipWs cs with
    | [] => none
    | 'n' :: 'u' :: 'l' :: 'l' :: rest => some (.null, rest)
    | 't' :: 'r' :: 'u' :: 'e' :: rest => some (.bool true, rest)
    | 'f' :: 'a' :: 'l' :: 's' :: 'e' :: rest => some (.bool false, rest)
    | c :: rest =>
      if c == '"' then
        match parseStringBody rest with
        | some (s, rest') => some (.str s, rest')
        | none => none
      else if c == '[' then
        match skipWs rest with
        | c' :: rest' =>
          if c' == ']' then some (.arr [], rest')
          else parseArrayElems fuel (c' :: rest') []
        | [] => none
      else if c == Char.ofNat 123 then
        match skipWs rest with
        | c' :: rest' =>
          if c' == Char.ofNat 125 then some (.obj [], rest')
          else parseObjectFields fuel (c' :: rest') []
        | [] => none
      else parseNumber (c :: rest)

/-- Elements of a non-empty array, accumulated in order. -/
def parseArrayElems : Nat → List Char → List Json → Option (Json × List Char)
  | 0, _, _ => none
  | fuel + 1, cs, acc =>
    match parseValue fuel cs with
    | none => none
    | some (v, rest) =>
      match skipWs rest with
      | c :: rest' =>
        if c == ',' then parseArrayElems fuel rest' (acc ++ [v])
        else if c == ']' then some (.arr (acc ++ [v]), rest')
        else none
      | [] => none

/-- Fields of a non-empty object; built with sorted overwriting insertion,
mirroring `BTreeMap` (later duplicate keys overwrite earlier ones). -/
def parseObjectFields : Nat → List Char → List (String × Json) → Option (Json × List Char)
  | 0, _, _ => none
  | fuel + 1, cs, acc =>
    match skipWs cs with
    | c :: rest =>
      if c == '"' then
        match parseStringBody rest with
        | none => none
        | some (k, rest') =>
          match skipWs rest' with
          | c' :: rest'' =>
            if c' == ':' then
              match parseValue fuel rest'' with
              | none => none
              | some (v, rest3) =>
                let acc' := Json.sortInsertField k v acc
                match skipWs rest3 with
                | c'' :: rest4 =>
                  if c'' == ',' then parseObjectFields fuel rest4 acc'
                  else if c'' == Char.ofNat 125 then some (.obj acc', rest4)
                  else none
                | [] => none
            else none
          | [] => none
      else none
    | [] => none
end

end JsonParse

/-- Model of `serde_json::from_slice::<Value>`: parse a complete JSON document
(trailing whitespace allowed, nothing else may follow the value). -/
def Json.parse? (s : String) : Option Json :=
  match JsonParse.parseValue (2 * s.length + 4) s.data with
  | some (j, rest) => if (JsonParse.skipWs rest).isEmpty then some j else none
  | none => none

/-! ## Core types (`src/urich-core/src/lib.rs`, `router.rs`, `schema.rs`) -/

/-- The `router.rs`: `pub struct RouteId(pub u32)`. -/
structure RouteId where
  val : Nat
deriving DecidableEq, BEq

/-- Rust `{:?}` rendering of a `RouteId`. -/
def rustDebugRouteId (r : RouteId) : String :=
  "RouteId(" ++ toString r.val ++ ")"

/-- Rust `{:?}` rendering of a `&str` (quotes plus basic escapes). -/
def rustDebugStr (s : String) : String :=
  let esc : Char → String := fun c =>
    if c == '"' then "\\\""
    else if c == '\\' then "\\\\"
    else if c == '\n' then "\\n"
    else if c == '\r' then "\\r"
    else if c == '\t' then "\\t"
    else String.singleton c
  "\"" ++ String.join (s.data.map esc) ++ "\""

/-- The `lib.rs`: `enum CoreError { NotFound, Validation, Json }`. -/
inductive CoreError where
  | notFound (msg : String)
  | validation (msg : String)
  | json (msg : String)
deriving DecidableEq

/-- The `thiserror` `Display` implementation of `CoreError`. -/
def CoreError.display : CoreError → String
  | .notFound m => "route not found: " ++ m
  | .validation m => "validation error: " ++ m
  | .json m => "invalid JSON: " ++ m

/-- Modelled `Display` text of the external `serde_json` parse error wrapped by
`CoreError::Json`; its exact wording is not modelled and no verified property
depends on it. -/
def serdeErrMsg (_body : String) : String :=
  "JSON parse error"

/-- The `router.rs`: `Router { table: HashMap<(String, String), RouteId> }`. -/
structure Router where
  table : List ((String × String) × RouteId)

def Router.new : Router := ⟨[]⟩

/-- The `Router::add`: trims *leading* slashes from the path, upper-cases the
method, and inserts into the table. -/
def Router.add (r : Router) (method path : String) (id : RouteId) : Router :=
  let path := trimLeadingSlashes path
  ⟨insertOv (strToUpper method, path) id r.table⟩

/-- The `Router::match_route`: trims slashes from *both* ends of the queried path,
upper-cases the method, and looks the key up. -/
def Router.match_route (r : Router) (method path : String) : Option RouteId :=
  let path := trimSlashesBoth path
  r.table.lookup (strToUpper method, path)

/-- The `schema.rs::validate_json`: the placeholder validator.  It parses `body`
as JSON and returns the bytes unchanged; the schema argument is ignored
(`_schema`).  A parse failure surfaces as `CoreError::Json` via `#[from]`. -/
def validate_json (body : String) (_schema : Json) : Except CoreError String :=
  match Json.parse? body with
  | none => .error (.json (serdeErrMsg body))
  | some _ => .ok body

/-- The `lib.rs`: registered `Route` metadata. -/
structure Route where
  id : RouteId
  method : String
  path : String
  request_schema : Option Json
  openapi_tag : Option String

/-- The `lib.rs`: `RequestContext { method, path, headers, body }`. -/
structure RequestContext where
  method : String
  path : String
  headers : List (String × String)
  body : String

/-- The `lib.rs`: `Response { status_code, body, content_type }`. -/
structure Response where
  status_code : Nat
  body : String
  content_type : Option String
deriving DecidableEq

/-- The request callback `(RouteId, payload, context) -> Result<Response>`,
with the async closure modelled as a pure function. -/
def RequestCallback : Type :=
  RouteId → String → RequestContext → Except CoreError Response

/-- The `u32` arithmetic wraps at `2^32` (release-mode Rust semantics). -/
def u32Size : Nat := 4294967296

/-- The `lib.rs`: core `App` state. -/
structure App where
  router : Router
  routes : List (RouteId × Route)
  next_route_id : Nat
  callback : Option RequestCallback
  rpc_route_id : Option RouteId
  rpc_methods : List (String × (RouteId × Option Json))
  event_subscriptions : List (String × List RouteId)

namespace App

def new : App :=
  { router := Router.new
    routes := []
    next_route_id := 0
    callback := none
    rpc_route_id := none
    rpc_methods := []
    event_subscriptions := [] }

/-- The `App::alloc_handler_id`: hand out the counter value and increment it. -/
def alloc_handler_id (a : App) : App × RouteId :=
  let id : RouteId := ⟨a.next_route_id⟩
  ({ a with next_route_id := (a.next_route_id + 1) % u32Size }, id)

/-- The `App::register_route` (the Rust `Result` is always `Ok`). -/
def register_route (a : App) (method path : String) (request_schema : Option Json)
    (openapi_tag : Option String) : App × RouteId :=
  let path := trimLeadingSlashes path
  let id : RouteId := ⟨a.next_route_id⟩
  let a := { a with next_route_id := (a.next_route_id + 1) % u32Size }
  let router := a.router.add method path id
  let routes := insertOv id
    { id := id, method := method, path := path
      request_schema := request_schema, openapi_tag := openapi_tag } a.routes
  ({ a with router := router, routes := routes }, id)

/-- The `App::add_command`: `POST {context}/commands/{name}`. -/
def add_command (a : App) (context name : String) (request_schema : Option Json) :
    App × RouteId :=
  let context := trimSlashesBoth context
  let path := context ++ "/commands/" ++ name
  a.register_route "POST" path request_schema (some context)

/-- The `App::add_query`: `GET {context}/queries/{name}`. -/
def add_query (a : App) (context name : String) (request_schema : Option Json) :
    App × RouteId :=
  let context := trimSlashesBoth context
  let path := context ++ "/queries/" ++ name
  a.register_route "GET" path request_schema (some context)

/-- The `App::add_rpc_route`: register the single RPC POST route and remember its id. -/
def add_rpc_route (a : App) (path : String) : App :=
  let path := trimSlashesBoth path
  let (a, id) := a.register_route "POST" path none (some "RPC")
  { a with rpc_route_id := some id }

/-- The `App::add_rpc_method`: allocate an id and record the method in the table. -/
def add_rpc_method (a : App) (name : String) (request_schema : Option Json) :
    App × RouteId :=
  let (a, id) := a.alloc_handler_id
  ({ a with rpc_methods := insertOv name (id, request_schema) a.rpc_methods }, id)

/-- The `App::subscribe_event`: allocate an id and append it to the event type's
subscriber list (`entry().or_default().push(id)`). -/
def subscribe_event (a : App) (event_type_id : String) : App × RouteId :=
  let (a, id) := a.alloc_handler_id
  let subs := match a.event_subscriptions.lookup event_type_id with
    | some ids => insertOv event_type_id (ids ++ [id]) a.event_subscriptions
    | none => a.event_subscriptions ++ [(event_type_id, [id])]
  ({ a with event_subscriptions := subs }, id)

def set_callback (a : App) (cb : RequestCallback) : App :=
  { a with callback := some cb }

def get_callback (a : App) : Option RequestCallback :=
  a.callback

/-- The `App::match_route_and_validate`: route lookup, RPC envelope dispatch,
schema validation; returns `(handler_id, payload)`. -/
def match_route_and_validate (a : App) (context : RequestContext) :
    Except CoreError (RouteId × String) :=
  match a.router.match_route context.method context.path with
  | none => .error (.notFound (context.method ++ " " ++ context.path))
  | some route_id =>
    if a.rpc_route_id = some route_id then
      let body_value := (Json.parse? context.body).getD .null
      let method_name := ((body_value.getField? "method").bind Json.asStr?).getD ""
      match a.rpc_methods.lookup method_name with
      | none => .error (.notFound ("rpc method " ++ rustDebugStr method_name))
      | some (handler_id, schema) =>
        let params := (body_value.getField? "params").getD .null
        let params_bytes := params.render
        match schema with
        | some s =>
          match validate_json params_bytes s with
          | .error e => .error e
          | .ok _ => .ok (handler_id, params_bytes)
        | none => .ok (handler_id, params_bytes)
    else
      match a.routes.lookup route_id with
      | none => .error (.notFound ("route_id " ++ rustDebugRouteId route_id))
      | some route =>
        match route.request_schema with
        | some s =>
          match validate_json context.body s with
          | .error e => .error e
          | .ok validated => .ok (route_id, validated)
        | none => .ok (route_id, context.body)

/-- The `App::handle_request`: match + validate, then invoke the callback. -/
def handle_request (a : App) (context : RequestContext) : Except CoreError Response :=
  match a.match_route_and_validate context with
  | .error e => .error e
  | .ok (handler_id, payload) =>
    match a.callback with
    | none => .error (.validation "no callback set")
    | some cb => cb handler_id payload context

/-- The subscriber loop of `App::publish_event`: invoke the callback for each
subscriber in order, stopping at the first error.  Besides the result it
returns the trace of performed invocations `(handler_id, payload)`. -/
def runSubscribers (cb : RequestCallback) (payload : String) (ctx : RequestContext) :
    List RouteId → Except CoreError Unit × List (RouteId × String)
  | [] => (.ok (), [])
  | id :: rest =>
    match cb id payload ctx with
    | .error e => (.error e, [(id, payload)])
    | .ok _ =>
      let (res, trace) := runSubscribers cb payload ctx rest
      (res, (id, payload) :: trace)

/-- The `App::publish_event` (a `&self` method: the returned `App` is the state
after the call, which Rust's borrow discipline keeps identical to the input).
Returns the state, the result, and the trace of callback invocations. -/
def publish_event (a : App) (event_type_id : String) (payload : String) :
    App × Except CoreError Unit × List (RouteId × String) :=
  match a.callback with
  | none => (a, .error (.validation "no callback set"), [])
  | some cb =>
    let ctx : RequestContext :=
      { method := "EVENT", path := "", headers := [], body := payload }
    match a.event_subscriptions.lookup event_type_id with
    | none => (a, .ok (), [])
    | some ids => (a, runSubscribers cb payload ctx ids)

end App

/-! ## Application facade (`src/urich-core/src/application.rs`) -/

/-- The `container.rs`: the type-erased DI container.  It is an out-of-scope
collaborator only threaded through to handlers, so its contents are modelled
opaquely. -/
structure Container where
  erasedStore : Unit := ()

/-- The `application.rs`: async per-route handler `(Value, container) -> Result<Value>`,
modelled as a pure function. -/
def Handler : Type := Json → Container → Except CoreError Json

/-- The `application.rs`: async middleware `(&RequestContext) -> Option<Response>`,
modelled as a pure function. -/
def Middleware : Type := RequestContext → Option Response

/-- The `application.rs`: the single external callback variant. -/
def ExternalCallback : Type := RequestCallback

/-- The `application.rs`: `Application` state.  The fields not involved in any
verified claim (typed event handlers, discovery, outbox adapters) are
omitted; they are never read by `install_callback` or dispatch. -/
structure Application where
  core : App
  handlers : List (RouteId × Handler)
  callback_installed : Bool
  middlewares : List Middleware
  container : Container
  external_callback : Option ExternalCallback

namespace Application

def new : Application :=
  { core := App.new
    handlers := []
    callback_installed := false
    middlewares := []
    container := {}
    external_callback := none }

/-- The middleware loop shared by both installed-callback variants: the first
middleware returning `Some(response)` wins. -/
def firstSome : List Middleware → RequestContext → Option Response
  | [], _ => none
  | mw :: rest, ctx =>
    match mw ctx with
    | some r => some r
    | none => firstSome rest ctx

/-- The closure `install_callback` builds in the external-callback branch:
run the middlewares in order, short-circuit on the first `Some`, otherwise
forward to the external callback. -/
def builtExternalCallback (middlewares : List Middleware) (ext : ExternalCallback) :
    RequestCallback :=
  fun route_id body ctx =>
    match firstSome middlewares ctx with
    | some resp => .ok resp
    | none => ext route_id body ctx

/-- Body decoding inside the handler-branch closure: an empty body becomes
`Value::Null`, otherwise the body must parse as JSON (`Validation` error). -/
def decodeBodyValue (body : String) : Except CoreError Json :=
  if body == "" then .ok .null
  else
    match Json.parse? body with
    | none => .error (.validation (serdeErrMsg body))
    | some v => .ok v

/-- The post-middleware part of the handler-branch closure: decode the body,
look up the handler by `RouteId` (`NotFound` when absent), run it, and wrap
its JSON result in a 200 response. -/
def handlerDispatch (handlers : List (RouteId × Handler)) (container : Container) :
    RequestCallback :=
  fun route_id body _ctx =>
    match decodeBodyValue body with
    | .error e => .error e
    | .ok value =>
      match handlers.lookup route_id with
      | none => .error (.notFound ("route_id " ++ rustDebugRouteId route_id))
      | some h =>
        match h value container with
        | .error e => .error e
        | .ok result =>
          .ok { status_code := 200, body := result.render, content_type := none }

/-- The closure `install_callback` builds in the handler-map branch: run the
middlewares in order, short-circuit on the first `Some`, otherwise dispatch
to the handler map. -/
def builtHandlersCallback (handlers : List (RouteId × Handler))
    (middlewares : List Middleware) (container : Container) : RequestCallback :=
  fun route_id body ctx =>
    match firstSome middlewares ctx with
    | some resp => .ok resp
    | none => handlerDispatch handlers container route_id body ctx

/-- The `Application::install_callback`: guarded by `callback_installed`; on the
first call it moves the middleware list (and, in the handler branch, the
handler map) out of the builder into the shared callback installed on the
core. -/
def install_callback (ap : Application) : Application :=
  if ap.callback_installed then ap
  else
    match ap.external_callback with
    | some ext =>
      { ap with
        callback_installed := true
        external_callback := none
        middlewares := []
        core := ap.core.set_callback (builtExternalCallback ap.middlewares ext) }
    | none =>
      { ap with
        callback_installed := true
        handlers := []
        middlewares := []
        core := ap.core.set_callback
          (builtHandlersCallback ap.handlers ap.middlewares ap.container) }

end Application

/-! ## Scope / message protocol (`src/urich-core/src/asgi.rs`) -/

structure HttpScope where
  method : String
  path : String
  headers : List (String × String)
  query_string : String

structure WsScope where
  path : String
  headers : List (String × String)

inductive LifespanScope where
  | startup
  | shutdown

inductive Scope where
  | http (s : HttpScope)
  | websocket (s : WsScope)
  | lifespan (s : LifespanScope)

inductive AsgiReceiveMessage where
  | httpRequest (body : String)
  | lifespanStartup
  | lifespanShutdown
  | wsReceive (text : Option String) (bytes : Option String) (close_code : Option Nat)
deriving DecidableEq

inductive AsgiSendMessage where
  | httpResponseStart (status : Nat) (headers : List (String × String))
  | httpResponseBody (body : String) (more : Bool)
  | lifespanStartupComplete
  | lifespanShutdownComplete
  | wsSend (text : Option String) (bytes : Option String)
  | wsClose (code : Option Nat)
deriving DecidableEq

/-! ## OpenAPI document (`App::openapi_spec` in `lib.rs`) -/

/-- The per-route OpenAPI operation object fields (`tags`, optional
`requestBody`). -/
def Route.openapiOperationFields (r : Route) : List (String × Json) :=
  let tags := match r.openapi_tag with
    | some t => Json.arr [Json.str t]
    | none => Json.arr []
  match r.request_schema with
  | some s =>
    [("tags", tags),
     ("requestBody",
       Json.mkObj [("content", Json.mkObj [("application/json", Json.mkObj [("schema", s)])])])]
  | none => [("tags", tags)]

/-- The `App::openapi_spec`.  The `routes` table is iterated in list order (the
Rust `HashMap` iteration order is unspecified); map keys are kept sorted as
`serde_json::Map` (a `BTreeMap`) does, so the rendered document is the
canonical one. -/
def App.openapi_spec (a : App) (title version : String) : Json :=
  let paths := a.routes.foldl (fun acc kv =>
    let r := kv.2
    let key := "/" ++ trimLeadingSlashes r.path
    let m := strToLower r.method
    Json.sortInsertField key (Json.mkObj [(m, Json.mkObj r.openapiOperationFields)]) acc) []
  Json.mkObj
    [("openapi", Json.str "3.0.0"),
     ("info", Json.mkObj [("title", Json.str title), ("version", Json.str version)]),
     ("paths", Json.obj paths)]

/-- The `asgi.rs`: the static Swagger UI page served at `/docs`. -/
def SWAGGER_UI_HTML : String :=
  "<!DOCTYPE html>\n<html>\n<head><title>Swagger UI</title><link rel=\"stylesheet\" href=\"https://unpkg.com/swagger-ui-dist@5/swagger-ui.css\"></head>\n<body><div id=\"swagger-ui\"></div>\n<script src=\"https://unpkg.com/swagger-ui-dist@5/swagger-ui-bundle.js\"></script>\n<script>SwaggerUIBundle(\x7b url: \x27/openapi.json\x27, dom_id: \x27#swagger-ui\x27 \x7d);</script>\n</body>\n</html>"

/-! ## `UrichAsgi::call` (`asgi.rs`) -/

/-- The ASGI application over the core `App`. -/
structure UrichAsgi where
  app : App
  openapi_title : String
  openapi_version : String

/-- The `UrichAsgi::call`, with the receive endpoint modelled as the list of
messages the transport driver would deliver (for HTTP, one `HttpRequest`)
and the send endpoint as the returned message list. -/
def UrichAsgi.call (u : UrichAsgi) (scope : Scope) (received : List AsgiReceiveMessage) :
    Except CoreError (List AsgiSendMessage) :=
  match scope with
  | .lifespan .startup => .ok [.lifespanStartupComplete]
  | .lifespan .shutdown => .ok [.lifespanShutdownComplete]
  | .websocket _ => .ok [.wsClose (some 1008)]
  | .http http_scope =>
    match received.head? with
    | some (.httpRequest body) =>
      let req : RequestContext :=
        { method := http_scope.method, path := http_scope.path
          headers := http_scope.headers, body := body }
      let path := trimLeadingSlashes req.path
      let path_with_slash := "/" ++ path
      if path == "openapi.json" || path_with_slash == "/openapi.json" then
        .ok [.httpResponseStart 200 [("Content-Type", "application/json")],
             .httpResponseBody (u.app.openapi_spec u.openapi_title u.openapi_version).render false]
      else if path == "docs" || path_with_slash == "/docs" then
        .ok [.httpResponseStart 200 [("Content-Type", "text/html")],
             .httpResponseBody SWAGGER_UI_HTML false]
      else
        match u.app.match_route_and_validate req with
        | .error e => .error e
        | .ok (handler_id, payload) =>
          match u.app.get_callback with
          | none => .error (.validation "no callback set")
          | some cb =>
            match cb handler_id payload req with
            | .error e => .error e
            | .ok response =>
              let content_type := response.content_type.getD "application/json"
              .ok [.httpResponseStart response.status_code [("Content-Type", content_type)],
                   .httpResponseBody response.body false]
    | _ => .error (.validation "expected http.request")

/-! ## Embedded HTTP transport (`src/urich-core/src/http.rs`) -/

/-- A wire-level response as assembled by the hyper glue. -/
structure HyperResponse where
  status : Nat
  headers : List (String × String)
  body : String
deriving DecidableEq

/-- The `http.rs::asgi_error_to_hyper`: NotFound maps to 404, everything else to
400; the body is `{"error": <Display text>}` with JSON content type. -/
def asgi_error_to_hyper (e : CoreError) : HyperResponse :=
  let status : Nat := match e with
    | .notFound _ => 404
    | _ => 400
  { status := status
    headers := [("Content-Type", "application/json")]
    body := (Json.mkObj [("error", Json.str e.display)]).render }

/-- Rust `str::split(c)` (the result is never empty). -/
def splitOnChar (c : Char) : List Char → List (List Char)
  | [] => [[]]
  | x :: xs =>
    let r := splitOnChar c xs
    if x == c then [] :: r
    else
      match r with
      | [] => [[x]]
      | h :: t => (x :: h) :: t

/-- Rust `str::splitn(2, c)`: the part before the first `c`, and the rest when
`c` occurs. -/
def splitFirstOn (c : Char) : List Char → List Char × Option (List Char)
  | [] => ([], none)
  | x :: xs =>
    if x == c then ([], some xs)
    else
      let (a, b) := splitFirstOn c xs
      (x :: a, b)

/-- Rust `str::trim()` (restricted to ASCII whitespace, which is all a valid
request line can contain). -/
def trimAsciiWs (cs : List Char) : List Char :=
  ((cs.dropWhile Char.isWhitespace).reverse.dropWhile Char.isWhitespace).reverse

/-- The key/value pairs of the GET query-string conversion in
`hyper_request_to_scope_and_body`: split on `'&'`, each part split at the
first `'='` (missing value becomes `""`), both sides trimmed, empty keys
dropped. -/
def queryPairsList (qs : List Char) : List (String × String) :=
  (splitOnChar '&' qs).filterMap fun p =>
    let (k, vOpt) := splitFirstOn '=' p
    let k := trimAsciiWs k
    let v := trimAsciiWs (vOpt.getD [])
    if k.isEmpty then none else some (⟨k⟩, ⟨v⟩)

/-- The JSON object built from the query pairs (the Rust `HashMap` collect:
later duplicates overwrite earlier ones; serialization order canonicalized to
sorted keys). -/
def queryJson (qs : List Char) : Json :=
  Json.obj ((queryPairsList qs).foldl (fun acc kv => Json.sortInsertField kv.1 (Json.str kv.2) acc) [])

/-- A wire-level request as hyper hands it to the glue: `uri().path()` and
`uri().query()` are the path and optional query component. -/
structure HyperRequest where
  method : String
  path : String
  query : Option String
  headers : List (String × String)
  body : String

/-- The `req.uri().to_string()` for an origin-form request target. -/
def HyperRequest.url (r : HyperRequest) : String :=
  match r.query with
  | some q => r.path ++ "?" ++ q
  | none => r.path

/-- The `http.rs::hyper_request_to_scope_and_body`: builds the `Scope` (path with
leading slashes trimmed) and the delivered body; for a GET whose URL contains
`'?'`, the body is replaced by the JSON object derived from
`url.split('?').nth(1)`. -/
def hyper_request_to_scope_and_body (req : HyperRequest) : Scope × String :=
  let method := req.method
  let path := trimLeadingSlashes req.path
  let query_string := req.query.getD ""
  let url := req.url
  let body :=
    if strToUpper method == "GET" then
      match (splitOnChar '?' url.data).get? 1 with
      | some qs => (queryJson qs).render
      | none => req.body
    else req.body
  (Scope.http { method := method, path := path, headers := req.headers, query_string := query_string },
   body)

/-! ## Claim-side (spec-worded) definitions

These definitions restate parts of the specification in its own words, to be
compared with the source-translated functions above. -/

/-- Spec §4.2 step 2: parse the body as JSON (null when unparsable) and read
the `method` string field, defaulting to the empty string. -/
def rpcEnvelopeMethod (body : String) : String :=
  ((((Json.parse? body).getD .null).getField? "method").bind Json.asStr?).getD ""

/-- Spec §4.2 step 2: extract the `params` field (default null) and
re-serialize it to bytes. -/
def rpcEnvelopeParamsBytes (body : String) : String :=
  ((((Json.parse? body).getD .null).getField? "params").getD .null).render

/-- The part of a character list before the first occurrence of `c`. -/
def beforeFirst (c : Char) (cs : List Char) : List Char :=
  (splitFirstOn c cs).1

/-! ## Registration operations (for the allocation invariant) -/

/-- One registration-phase operation that allocates a `RouteId` from the
`next_route_id` counter. -/
inductive RegOp where
  | registerRoute (method path : String) (schema : Option Json) (tag : Option String)
  | addCommand (context name : String) (schema : Option Json)
  | addQuery (context name : String) (schema : Option Json)
  | addRpcRoute (path : String)
  | addRpcMethod (name : String) (schema : Option Json)
  | subscribeEvent (event_type_id : String)

/-- Apply one registration operation, returning the new state and the
`RouteId` the operation allocated (for `add_rpc_route` this is the id it
records in `rpc_route_id`). -/
def applyOp (a : App) : RegOp → App × RouteId
  | .registerRoute m p sch tag => a.register_route m p sch tag
  | .addCommand c n sch => a.add_command c n sch
  | .addQuery c n sch => a.add_query c n sch
  | .addRpcRoute p =>
    let (a1, id) := a.register_route "POST" (trimSlashesBoth p) none (some "RPC")
    ({ a1 with rpc_route_id := some id }, id)
  | .addRpcMethod n sch => a.add_rpc_method n sch
  | .subscribeEvent e => a.subscribe_event e

/-- Apply a sequence of registration operations, collecting the allocated ids
in order. -/
def applyOps (a : App) : List RegOp → App × List RouteId
  | [] => (a, [])
  | op :: ops =>
    let (a1, id) := applyOp a op
    let (a2, ids) := applyOps a1 ops
    (a2, id :: ids)

/-! ## Concrete fixtures used by the witnesses and counterexamples -/

/-- An app with one plain route carrying a request schema (route id 0). -/
def schemaApp : App :=
  (App.new.register_route "POST" "r" (some (Json.mkObj [("type", Json.str "object")])) none).1

/-- An app with the RPC route at `rpc` (id 0) and methods `get_foo` (id 1,
no schema) and `add` (id 2, with a params schema). -/
def rpcApp : App :=
  let a := App.new.add_rpc_route "rpc"
  let (a, _) := a.add_rpc_method "get_foo" none
  let (a, _) := a.add_rpc_method "add" (some (Json.mkObj [("type", Json.str "object")]))
  a

/-- A callback that succeeds with an empty 200 response. -/
def okCallback : RequestCallback :=
  fun _ _ _ => .ok { status_code := 200, body := "", content_type := none }

/-- A callback that fails on route id 1 and succeeds otherwise. -/
def failOn1Callback : RequestCallback :=
  fun id _ _ =>
    if id.val == 1 then .error (.validation "boom")
    else .ok { status_code := 200, body := "", content_type := none }

/-- An app with three subscribers (ids 0, 1, 2) to `OrderCreated` and the
callback that fails on id 1. -/
def eventApp : App :=
  let (a, _) := App.new.subscribe_event "OrderCreated"
  let (a, _) := a.subscribe_event "OrderCreated"
  let (a, _) := a.subscribe_event "OrderCreated"
  a.set_callback failOn1Callback

/-- Same three subscribers, with the always-succeeding callback. -/
def eventAppOk : App :=
  let (a, _) := App.new.subscribe_event "OrderCreated"
  let (a, _) := a.subscribe_event "OrderCreated"
  let (a, _) := a.subscribe_event "OrderCreated"
  a.set_callback okCallback

/-- A handler answering with the JSON string `"ran"`. -/
def ranHandler : Handler :=
  fun _ _ => .ok (.str "ran")

/-- A handler answering with the JSON string `"other"`. -/
def otherHandler : Handler :=
  fun _ _ => .ok (.str "other")

/-- A middleware that rejects every request with a 401 response. -/
def reject401 : Middleware :=
  fun _ => some { status_code := 401, body := "denied", content_type := none }

/-- A middleware that lets every request through. -/
def passMw : Middleware :=
  fun _ => none

/-- A plain request context fixture. -/
def ctx0 : RequestContext :=
  { method := "POST", path := "r", headers := [], body := "\x7b\x7d" }

/-- An `Application` in handler mode: one handler at id 0, one passing
middleware, not yet installed. -/
def handlerModeApp : Application :=
  { core := App.new
    handlers := [(⟨0⟩, ranHandler)]
    callback_installed := false
    middlewares := [passMw]
    container := {}
    external_callback := none }

/-- An `Application` in external-callback mode, not yet installed. -/
def externalModeApp : Application :=
  { core := App.new
    handlers := []
    callback_installed := false
    middlewares := [passMw]
    container := {}
    external_callback := some okCallback }

/-- The ASGI fixture over `schemaApp`. -/
def asgiFixture : UrichAsgi :=
  { app := schemaApp.set_callback okCallback, openapi_title := "T", openapi_version := "1" }

/-- A second ASGI fixture: same routes, but a different router table, RPC
table and callback (used to show the interception never consults them). -/
def asgiFixtureAlt : UrichAsgi :=
  { app := { schemaApp.set_callback failOn1Callback with
             router := Router.new.add "GET" "openapi.json" ⟨9⟩
             rpc_route_id := some ⟨9⟩ }
    openapi_title := "T", openapi_version := "1" }

/-- The `RequestContext` that `App::publish_event` constructs for its
subscribers. -/
def eventCtx (payload : String) : RequestContext :=
  { method := "EVENT", path := "", headers := [], body := payload }

/-! ## Helper lemmas -/

theorem lookup_insertOv {α β : Type} [BEq α] [LawfulBEq α] (k : α) (v : β) :
    ∀ l : List (α × β), (insertOv k v l).lookup k = some v
  | [] => by simp [insertOv, List.lookup]
  | (k', v') :: rest => by
    by_cases h : k' = k
    · subst h
      simp [insertOv, List.lookup]
    · have hb : (k' == k) = false := beq_eq_false_iff_ne.mpr h
      have hb' : (k == k') = false := beq_eq_false_iff_ne.mpr (Ne.symm h)
      simp [insertOv, List.lookup, hb, hb', lookup_insertOv k v rest]

/-! ## C2 — route-table round trip -/

/-- Claim C2 (counterexample).  The claim asserts that after
`Router::add(m, p, id)` a query with the very same method and path succeeds,
independent of leading/trailing slashes.  It fails for a registered path with
a trailing slash: `add` trims only leading slashes while `match_route` trims
both ends, so the stored key `"x/"` is never produced by a lookup. -/
theorem router_roundtrip_counterexample :
    (Router.new.add "GET" "x/" ⟨0⟩).match_route "GET" "x/" = none := by
  decide

/-- Claim C2 (amended): the round trip is case-insensitive in the method and
slash-insensitive provided trimming slashes from both ends of the queried
path yields the *leading-trimmed* registered path — in particular it holds
whenever the registered path has no trailing slash. -/
theorem router_add_match_roundtrip (r : Router) (m p m2 p2 : String) (id : RouteId)
    (hm : strToUpper m2 = strToUpper m)
    (hp : trimSlashesBoth p2 = trimLeadingSlashes p) :
    (r.add m p id).match_route m2 p2 = some id := by
  unfold Router.add Router.match_route
  rw [hm, hp]
  exact lookup_insertOv _ _ _

/-- Witness for C2: a registered path with a leading slash and lower-case
method is found by a query with a trailing slash and upper-case method. -/
theorem router_add_match_roundtrip_witness :
    (Router.new.add "get" "/x" ⟨7⟩).match_route "GET" "x/" = some ⟨7⟩ :=
  router_add_match_roundtrip Router.new "get" "/x" "GET" "x/" ⟨7⟩ (by decide) (by decide)

/-! ## C7 — wire-level error rendering -/

/-- Claim C7: `asgi_error_to_hyper` maps NotFound to HTTP 404 and every other
`CoreError` kind to 400 in this minimal transport, with body
`{"error": <message>}` and JSON content type. -/
theorem wire_error_rendering (e : CoreError) :
    ((asgi_error_to_hyper e).status = 404 ↔ ∃ m, e = .notFound m)
    ∧ ((asgi_error_to_hyper e).status = 400 ↔ ∀ m, e ≠ .notFound m)
    ∧ (asgi_error_to_hyper e).body = "\x7b\"error\":" ++ Json.renderString e.display ++ "\x7d"
    ∧ (asgi_error_to_hyper e).headers = [("Content-Type", "application/json")] := by
  have hkey : Json.renderString "error" = "\"error\"" := rfl
  cases e <;>
    simp [asgi_error_to_hyper, Json.mkObj, Json.sortInsertField, Json.render,
      Json.renderObj, CoreError.display, hkey, String.append_assoc] <;>
    rw [← String.append_assoc, show "\x7b" ++ "\"error\":" = "\x7b\"error\":" from rfl]

/-! ## C3 — request-schema round trip -/

/-- Claim C3 (counterexample).  `schemaApp`'s only route carries the request
schema `{"type":"object"}`; the body `[]` is a JSON array, which does not
satisfy that schema, yet `match_route_and_validate` accepts it and forwards
it unchanged: `validate_json` is a placeholder that ignores the schema and
only checks that the body parses as JSON. -/
theorem schema_validation_counterexample :
    schemaApp.match_route_and_validate ⟨"POST", "r", [], "[]"⟩ = .ok (⟨0⟩, "[]") := by
  rfl

/-- Claim C3 (amended): for a route registered with a request schema, the
body is only required to *parse* as JSON — the schema itself is ignored by
the placeholder validator.  An unparsable body is rejected with a `Json`
error (not `Validation`); every parsable body is accepted and the exact body
bytes are propagated unchanged as the payload. -/
theorem request_schema_validation (a : App) (ctx : RequestContext) (rid : RouteId)
    (r : Route) (s : Json)
    (hmatch : a.router.match_route ctx.method ctx.path = some rid)
    (hnotrpc : a.rpc_route_id ≠ some rid)
    (hroute : a.routes.lookup rid = some r)
    (hschema : r.request_schema = some s) :
    (Json.parse? ctx.body = none →
      a.match_route_and_validate ctx = .error (.json (serdeErrMsg ctx.body)))
    ∧ (∀ v, Json.parse? ctx.body = some v →
      a.match_route_and_validate ctx = .ok (rid, ctx.body)) := by
  constructor
  · intro hp
    simp [App.match_route_and_validate, hmatch, hnotrpc, hroute, hschema, validate_json, hp]
  · intro v hv
    simp [App.match_route_and_validate, hmatch, hnotrpc, hroute, hschema, validate_json, hv]

/-- The route record `schemaApp` stores at id 0. -/
def schemaRoute : Route :=
  { id := ⟨0⟩, method := "POST", path := "r"
    request_schema := some (Json.mkObj [("type", Json.str "object")])
    openapi_tag := none }

/-- Witness for C3 (amended): on `schemaApp`, the parsable body `[]` is
accepted with the exact bytes as payload, and the unparsable body `[` is
rejected with a `Json` error. -/
theorem request_schema_validation_witness :
    schemaApp.match_route_and_validate ⟨"POST", "r", [], "[]"⟩ = .ok (⟨0⟩, "[]")
    ∧ schemaApp.match_route_and_validate ⟨"POST", "r", [], "["⟩
        = .error (.json (serdeErrMsg "[")) :=
  ⟨(request_schema_validation schemaApp ⟨"POST", "r", [], "[]"⟩ ⟨0⟩ schemaRoute
      (Json.mkObj [("type", Json.str "object")]) (by rfl) (by decide) (by rfl) (by rfl)).2
      (Json.arr []) (by rfl),
   (request_schema_validation schemaApp ⟨"POST", "r", [], "["⟩ ⟨0⟩ schemaRoute
      (Json.mkObj [("type", Json.str "object")]) (by rfl) (by decide) (by rfl) (by rfl)).1
      (by rfl)⟩

/-! ## C1 — RPC envelope dispatch -/

/-- Claim C1: when the matched route is the designated RPC route, the body is
parsed permissively (null when unparsable), the `method` field (default "")
is looked up in the RPC method table — absence fails with NotFound naming
the method, and a malformed envelope becomes a request for method `""` —
otherwise the `params` field (default null) is re-serialized, validated
against the method's params schema when one exists, and returned as the
payload together with the method's own RouteId. -/
theorem rpc_envelope_dispatch (a : App) (ctx : RequestContext) (rid : RouteId)
    (hrpc : a.rpc_route_id = some rid)
    (hmatch : a.router.match_route ctx.method ctx.path = some rid) :
    (a.rpc_methods.lookup (rpcEnvelopeMethod ctx.body) = none →
      a.match_route_and_validate ctx =
        .error (.notFound ("rpc method " ++ rustDebugStr (rpcEnvelopeMethod ctx.body))))
    ∧ (∀ mid, a.rpc_methods.lookup (rpcEnvelopeMethod ctx.body) = some (mid, none) →
      a.match_route_and_validate ctx = .ok (mid, rpcEnvelopeParamsBytes ctx.body))
    ∧ (∀ mid s, a.rpc_methods.lookup (rpcEnvelopeMethod ctx.body) = some (mid, some s) →
      a.match_route_and_validate ctx =
        (match validate_json (rpcEnvelopeParamsBytes ctx.body) s with
         | .error e => .error e
         | .ok _ => .ok (mid, rpcEnvelopeParamsBytes ctx.body)))
    ∧ (Json.parse? ctx.body = none → a.rpc_methods.lookup "" = none →
      a.match_route_and_validate ctx = .error (.notFound "rpc method \"\"")) := by
  refine ⟨?_, ?_, ?_, ?_⟩
  · intro hl
    have hl' : List.lookup
        (((((Json.parse? ctx.body).getD Json.null).getField? "method").bind Json.asStr?).getD "")
        a.rpc_methods = none := hl
    simp [App.match_route_and_validate, hmatch, hrpc, hl', rpcEnvelopeMethod,
      rpcEnvelopeParamsBytes]
  · intro mid hl
    have hl' : List.lookup
        (((((Json.parse? ctx.body).getD Json.null).getField? "method").bind Json.asStr?).getD "")
        a.rpc_methods = some (mid, none) := hl
    simp [App.match_route_and_validate, hmatch, hrpc, hl', rpcEnvelopeMethod,
      rpcEnvelopeParamsBytes]
  · intro mid s hl
    have hl' : List.lookup
        (((((Json.parse? ctx.body).getD Json.null).getField? "method").bind Json.asStr?).getD "")
        a.rpc_methods = some (mid, some s) := hl
    simp [App.match_route_and_validate, hmatch, hrpc, hl', rpcEnvelopeMethod,
      rpcEnvelopeParamsBytes]
  · intro hp hl
    have hl' : List.lookup
        (((((Json.parse? ctx.body).getD Json.null).getField? "method").bind Json.asStr?).getD "")
        a.rpc_methods = none := by
      simp [hp, Json.getField?, hl]
    have hd : ("rpc method " ++ rustDebugStr
        (((((Json.parse? ctx.body).getD Json.null).getField? "method").bind Json.asStr?).getD ""))
        = "rpc method \"\"" := by
      simp [hp, Json.getField?]
      rfl
    simp [App.match_route_and_validate, hmatch, hrpc, hl', hd]

/-- Witness for C1 on `rpcApp`: a well-formed envelope for `get_foo`
dispatches to id 1 with payload `{}`; an envelope for `add` (whose method
has a params schema) dispatches to id 2 with the re-serialized params; a
malformed envelope (`{`) fails with NotFound for method `""`. -/
theorem rpc_envelope_dispatch_witness :
    rpcApp.match_route_and_validate
        ⟨"POST", "rpc", [], "\x7b\"method\":\"get_foo\",\"params\":\x7b\x7d\x7d"⟩
      = .ok (⟨1⟩, "\x7b\x7d")
    ∧ rpcApp.match_route_and_validate
        ⟨"POST", "rpc", [], "\x7b\"method\":\"add\",\"params\":\x7b\"a\":1,\"b\":2\x7d\x7d"⟩
      = .ok (⟨2⟩, "\x7b\"a\":1,\"b\":2\x7d")
    ∧ rpcApp.match_route_and_validate ⟨"POST", "rpc", [], "\x7b"⟩
      = .error (.notFound "rpc method \"\"") := by
  refine ⟨?_, ?_, ?_⟩
  · exact (rpc_envelope_dispatch rpcApp
      ⟨"POST", "rpc", [], "\x7b\"method\":\"get_foo\",\"params\":\x7b\x7d\x7d"⟩ ⟨0⟩
      (by rfl) (by rfl)).2.1 ⟨1⟩ (by rfl)
  · exact (rpc_envelope_dispatch rpcApp
      ⟨"POST", "rpc", [], "\x7b\"method\":\"add\",\"params\":\x7b\"a\":1,\"b\":2\x7d\x7d"⟩ ⟨0⟩
      (by rfl) (by rfl)).2.2.1 ⟨2⟩ (Json.mkObj [("type", Json.str "object")]) (by rfl)
  · exact (rpc_envelope_dispatch rpcApp ⟨"POST", "rpc", [], "\x7b"⟩ ⟨0⟩
      (by rfl) (by rfl)).2.2.2 (by rfl) (by rfl)

/-! ## C4 — event publish semantics -/

theorem lookup_append_of_none {α β : Type} [BEq α] [LawfulBEq α] (k : α) (v : β) :
    ∀ l : List (α × β), l.lookup k = none → (l ++ [(k, v)]).lookup k = some v
  | [], _ => by simp [List.lookup]
  | (k', v') :: rest, h => by
    cases hkk : (k == k') with
    | true => simp [List.lookup, hkk] at h
    | false =>
      have hrest : rest.lookup k = none := by
        simpa [List.lookup, hkk] using h
      simpa [List.lookup, hkk] using lookup_append_of_none k v rest hrest

theorem runSubscribers_all_ok (cb : RequestCallback) (payload : String)
    (ctx : RequestContext) :
    ∀ ids : List RouteId, (∀ id ∈ ids, ∃ r, cb id payload ctx = .ok r) →
      App.runSubscribers cb payload ctx ids = (.ok (), ids.map (fun id => (id, payload)))
  | [], _ => rfl
  | id :: rest, h => by
    obtain ⟨r, hr⟩ := h id (by simp)
    have ih := runSubscribers_all_ok cb payload ctx rest (fun i hi => h i (by simp [hi]))
    simp [App.runSubscribers, hr, ih]

theorem runSubscribers_stops (cb : RequestCallback) (payload : String)
    (ctx : RequestContext) (bad : RouteId) (e : CoreError) (post : List RouteId)
    (hbad : cb bad payload ctx = .error e) :
    ∀ pre : List RouteId, (∀ id ∈ pre, ∃ r, cb id payload ctx = .ok r) →
      App.runSubscribers cb payload ctx (pre ++ bad :: post)
        = (.error e, pre.map (fun id => (id, payload)) ++ [(bad, payload)])
  | [], _ => by simp [App.runSubscribers, hbad]
  | id :: rest, h => by
    obtain ⟨r, hr⟩ := h id (by simp)
    have ih := runSubscribers_stops cb payload ctx bad e post hbad rest
      (fun i hi => h i (by simp [hi]))
    simp [App.runSubscribers, hr, ih]

/-- Claim C4: `publish_event` invokes the installed callback once per
subscriber, in subscription order, passing the same raw payload each time; a
failing subscriber stops the loop, its error propagates to the publisher,
and the registry state is unchanged.  (The final conjunct records that
`subscribe_event` appends the new subscriber at the end of the event type's
list, so the recorded order is the subscription order.) -/
theorem event_publish_semantics (a : App) (cb : RequestCallback)
    (etid payload : String) (ids : List RouteId)
    (hcb : a.callback = some cb)
    (hsubs : a.event_subscriptions.lookup etid = some ids) :
    ((∀ id ∈ ids, ∃ r, cb id payload (eventCtx payload) = .ok r) →
      a.publish_event etid payload = (a, .ok (), ids.map (fun id => (id, payload))))
    ∧ (∀ pre bad post e, ids = pre ++ bad :: post →
        (∀ id ∈ pre, ∃ r, cb id payload (eventCtx payload) = .ok r) →
        cb bad payload (eventCtx payload) = .error e →
        a.publish_event etid payload
          = (a, .error e, pre.map (fun id => (id, payload)) ++ [(bad, payload)]))
    ∧ (∀ et, ((a.subscribe_event et).1).event_subscriptions.lookup et
        = some ((a.event_subscriptions.lookup et).getD [] ++ [(a.subscribe_event et).2])) := by
  refine ⟨?_, ?_, ?_⟩
  · intro h
    have hrun := runSubscribers_all_ok cb payload (eventCtx payload) ids h
    simp [App.publish_event, hcb, hsubs, eventCtx] at hrun ⊢
    exact hrun
  · intro pre bad post e hsplit hpre hbad
    have hrun := runSubscribers_stops cb payload (eventCtx payload) bad e post hbad pre hpre
    subst hsplit
    simp [App.publish_event, hcb, hsubs, eventCtx] at hrun ⊢
    exact hrun
  · intro et
    unfold App.subscribe_event App.alloc_handler_id
    cases hl : a.event_subscriptions.lookup et with
    | some l => simp [hl, lookup_insertOv]
    | none => simp [hl, lookup_append_of_none _ _ _ hl]

/-- Witness for C4 on the three-subscriber fixtures: with the always-ok
callback all three subscribers are invoked in order with the payload; with
the callback failing on id 1, only ids 0 and 1 are invoked, the error
propagates, and the state is returned unchanged. -/
theorem event_publish_semantics_witness :
    eventAppOk.publish_event "OrderCreated" "p"
      = (eventAppOk, .ok (), [(⟨0⟩, "p"), (⟨1⟩, "p"), (⟨2⟩, "p")])
    ∧ eventApp.publish_event "OrderCreated" "p"
      = (eventApp, .error (.validation "boom"), [(⟨0⟩, "p"), (⟨1⟩, "p")]) :=
  ⟨(event_publish_semantics eventAppOk okCallback "OrderCreated" "p" [⟨0⟩, ⟨1⟩, ⟨2⟩]
      (by rfl) (by rfl)).1
      (fun id _ => ⟨{ status_code := 200, body := "", content_type := none }, rfl⟩),
   (event_publish_semantics eventApp failOn1Callback "OrderCreated" "p" [⟨0⟩, ⟨1⟩, ⟨2⟩]
      (by rfl) (by rfl)).2.1 [⟨0⟩] ⟨1⟩ [⟨2⟩] (.validation "boom") (by rfl)
      (fun id hid => ⟨{ status_code := 200, body := "", content_type := none }, by
        simp at hid
        subst hid
        rfl⟩)
      (by rfl)⟩

/-! ## C6 — install-once idempotence -/

/-- Claim C6: `install_callback` is guarded by `callback_installed`, so a
second call is a no-op (the resulting state — hence all observable dispatch
behavior — is identical); after the first install the middleware list (and,
in handler mode, the handler map) have been moved into the callback shared
with the core. -/
theorem install_once_idempotent (ap : Application) :
    (ap.install_callback).install_callback = ap.install_callback
    ∧ (ap.install_callback).callback_installed = true
    ∧ (ap.callback_installed = false →
        (ap.install_callback).middlewares = []
        ∧ (ap.external_callback = none →
            (ap.install_callback).handlers = []
            ∧ (ap.install_callback).core.callback
              = some (Application.builtHandlersCallback ap.handlers ap.middlewares ap.container))
        ∧ (∀ ext, ap.external_callback = some ext →
            (ap.install_callback).core.callback
              = some (Application.builtExternalCallback ap.middlewares ext))) := by
  by_cases h : ap.callback_installed
  · simp [Application.install_callback, h]
  · cases hx : ap.external_callback with
    | some ext => simp [Application.install_callback, h, hx, App.set_callback]
    | none => simp [Application.install_callback, h, hx, App.set_callback]

/-- Witness for C6 on the two fixtures: installing twice equals installing
once; after the first install the builder's handler map and middleware list
are empty and the built callback sits on the core (both modes). -/
theorem install_once_idempotent_witness :
    (handlerModeApp.install_callback).install_callback = handlerModeApp.install_callback
    ∧ (handlerModeApp.install_callback).middlewares = []
    ∧ (handlerModeApp.install_callback).handlers = []
    ∧ (handlerModeApp.install_callback).core.callback
        = some (Application.builtHandlersCallback handlerModeApp.handlers handlerModeApp.middlewares
            handlerModeApp.container)
    ∧ (externalModeApp.install_callback).core.callback
        = some (Application.builtExternalCallback externalModeApp.middlewares okCallback) :=
  ⟨(install_once_idempotent handlerModeApp).1,
   ((install_once_idempotent handlerModeApp).2.2 (by rfl)).1,
   (((install_once_idempotent handlerModeApp).2.2 (by rfl)).2.1 (by rfl)).1,
   (((install_once_idempotent handlerModeApp).2.2 (by rfl)).2.1 (by rfl)).2,
   ((install_once_idempotent externalModeApp).2.2 (by rfl)).2.2 okCallback (by rfl)⟩

/-! ## C5 — middleware short-circuit -/

theorem firstSome_append_some (pre : List Middleware) (mw : Middleware)
    (post : List Middleware) (ctx : RequestContext) (resp : Response)
    (hpre : ∀ m ∈ pre, m ctx = none) (hmw : mw ctx = some resp) :
    Application.firstSome (pre ++ mw :: post) ctx = some resp := by
  induction pre with
  | nil => simp [Application.firstSome, hmw]
  | cons m rest ih =>
    have hm : m ctx = none := hpre m (by simp)
    simp [Application.firstSome, hm]
    exact ih (fun m' hm' => hpre m' (by simp [hm']))

theorem firstSome_none (mws : List Middleware) (ctx : RequestContext)
    (hall : ∀ m ∈ mws, m ctx = none) :
    Application.firstSome mws ctx = none := by
  induction mws with
  | nil => rfl
  | cons m rest ih =>
    have hm : m ctx = none := hall m (by simp)
    simp [Application.firstSome, hm]
    exact ih (fun m' hm' => hall m' (by simp [hm']))

/-- Claim C5 (counterexample).  With no middleware installed (so every
middleware trivially "returns empty"), a non-empty body that is not valid
JSON makes the handler-mode installed callback return a Validation error:
the handler registered for the resolved RouteId does **not** run (its answer
`"ran"` never appears, and replacing it by a different handler leaves the
result unchanged), contradicting the claim's "if every middleware returns
empty, the handler for the resolved RouteId runs". -/
theorem middleware_handler_runs_counterexample :
    Application.builtHandlersCallback [(⟨0⟩, ranHandler)] [] {} ⟨0⟩ "x" ctx0
      = .error (.validation (serdeErrMsg "x"))
    ∧ Application.builtHandlersCallback [(⟨0⟩, ranHandler)] [] {} ⟨0⟩ "x" ctx0
      ≠ .ok { status_code := 200, body := "\"ran\"", content_type := none }
    ∧ Application.builtHandlersCallback [(⟨0⟩, ranHandler)] [] {} ⟨0⟩ "x" ctx0
      = Application.builtHandlersCallback [(⟨0⟩, otherHandler)] [] {} ⟨0⟩ "x" ctx0 := by
  refine ⟨rfl, fun h => ?_, rfl⟩
  rw [show Application.builtHandlersCallback [(⟨0⟩, ranHandler)] [] {} ⟨0⟩ "x" ctx0
      = .error (.validation (serdeErrMsg "x")) from rfl] at h
  exact Except.noConfusion h

/-- Claim C5 (amended): middlewares run strictly in registration order; the
first returning `Some` response short-circuits — that response is returned
and neither the later middlewares nor any handler can influence the result
(the conclusion holds for *every* handler map, external callback and
middleware tail).  If every middleware returns `None`, control passes to
handler resolution: the external callback (external mode) or — in handler
mode — the handler for the resolved RouteId, which runs only after the body
decodes as JSON (empty body ↦ null; otherwise a `Validation` error is
returned) and a handler exists for the id (`NotFound` otherwise). -/
theorem middleware_short_circuit
    (hs : List (RouteId × Handler)) (c : Container) (ext : ExternalCallback)
    (mws pre post : List Middleware) (mw : Middleware)
    (ctx : RequestContext) (resp : Response) (rid : RouteId) (body : String) :
    (mws = pre ++ mw :: post → (∀ m ∈ pre, m ctx = none) → mw ctx = some resp →
      Application.builtHandlersCallback hs mws c rid body ctx = .ok resp
      ∧ Application.builtExternalCallback mws ext rid body ctx = .ok resp)
    ∧ ((∀ m ∈ mws, m ctx = none) →
      Application.builtExternalCallback mws ext rid body ctx = ext rid body ctx
      ∧ Application.builtHandlersCallback hs mws c rid body ctx = Application.handlerDispatch hs c rid body ctx)
    ∧ (∀ v h, Application.decodeBodyValue body = .ok v → hs.lookup rid = some h →
        Application.handlerDispatch hs c rid body ctx =
          (match h v c with
           | .error e => .error e
           | .ok result =>
             .ok { status_code := 200, body := result.render, content_type := none }))
    ∧ (∀ e, Application.decodeBodyValue body = .error e →
        Application.handlerDispatch hs c rid body ctx = .error e)
    ∧ (∀ v, Application.decodeBodyValue body = .ok v → hs.lookup rid = none →
        Application.handlerDispatch hs c rid body ctx
          = .error (.notFound ("route_id " ++ rustDebugRouteId rid))) := by
  refine ⟨?_, ?_, ?_, ?_, ?_⟩
  · intro hsplit hpre hmw
    subst hsplit
    have hf := firstSome_append_some pre mw post ctx resp hpre hmw
    exact ⟨by simp [Application.builtHandlersCallback, hf], by simp [Application.builtExternalCallback, hf]⟩
  · intro hall
    have hf := firstSome_none mws ctx hall
    exact ⟨by simp [Application.builtExternalCallback, hf], by simp [Application.builtHandlersCallback, hf]⟩
  · intro v h hv hh
    simp [Application.handlerDispatch, hv, hh]
  · intro e he
    simp [Application.handlerDispatch, he]
  · intro v hv hn
    simp [Application.handlerDispatch, hv, hn]

/-- Witness for C5 (amended): a 401 middleware short-circuits the handler-mode
callback; with only passing middleware the external callback is reached; and
handler dispatch runs the registered handler on the decoded body. -/
theorem middleware_short_circuit_witness :
    Application.builtHandlersCallback [(⟨0⟩, ranHandler)] [reject401] {} ⟨0⟩ "\x7b\x7d" ctx0
      = .ok { status_code := 401, body := "denied", content_type := none }
    ∧ Application.builtExternalCallback [passMw] okCallback ⟨0⟩ "\x7b\x7d" ctx0
      = okCallback ⟨0⟩ "\x7b\x7d" ctx0
    ∧ Application.handlerDispatch [(⟨0⟩, ranHandler)] {} ⟨0⟩ "\x7b\x7d" ctx0
      = .ok { status_code := 200, body := "\"ran\"", content_type := none } :=
  ⟨((middleware_short_circuit [(⟨0⟩, ranHandler)] {} okCallback [reject401] [] []
      reject401 ctx0 { status_code := 401, body := "denied", content_type := none }
      ⟨0⟩ "\x7b\x7d").1 rfl (by simp) rfl).1,
   ((middleware_short_circuit [] {} okCallback [passMw] [] [] passMw ctx0
      { status_code := 401, body := "denied", content_type := none } ⟨0⟩ "\x7b\x7d").2.1
      (fun m hm => by
        simp at hm
        subst hm
        rfl)).1,
   (middleware_short_circuit [(⟨0⟩, ranHandler)] {} okCallback [] [] [] passMw ctx0
      { status_code := 401, body := "denied", content_type := none } ⟨0⟩ "\x7b\x7d").2.2.1
      (Json.obj []) ranHandler rfl rfl⟩

/-! ## C8 — RouteId allocation invariant -/

theorem applyOp_alloc (a : App) (op : RegOp) :
    (applyOp a op).2 = ⟨a.next_route_id⟩
    ∧ (applyOp a op).1.next_route_id = (a.next_route_id + 1) % u32Size := by
  cases op <;>
    simp [applyOp, App.register_route, App.add_command, App.add_query,
      App.add_rpc_method, App.subscribe_event, App.alloc_handler_id]

/-- Claim C8: every id handed out by `register_route`, `add_command`,
`add_query`, `add_rpc_route`, `add_rpc_method` and `subscribe_event` is drawn
from the single `next_route_id` counter, which only increments; over any
registration sequence (shorter than the `u32` range) the allocated ids are
exactly the consecutive counter values — strictly increasing in allocation
order, pairwise distinct across routes, RPC methods and event
subscriptions, and never handed out twice. -/
theorem route_id_allocation (a : App) (ops : List RegOp)
    (hbound : a.next_route_id + ops.length < u32Size) :
    (applyOps a ops).2
      = (List.range ops.length).map (fun i => (⟨a.next_route_id + i⟩ : RouteId))
    ∧ (applyOps a ops).1.next_route_id = a.next_route_id + ops.length
    ∧ (applyOps a ops).2.Pairwise (fun x y => x.val < y.val)
    ∧ (applyOps a ops).2.Nodup := by
  have key : ∀ (ops' : List RegOp) (a' : App), a'.next_route_id + ops'.length < u32Size →
      (applyOps a' ops').2
        = (List.range ops'.length).map (fun i => (⟨a'.next_route_id + i⟩ : RouteId))
      ∧ (applyOps a' ops').1.next_route_id = a'.next_route_id + ops'.length := by
    intro ops'
    induction ops' with
    | nil => intro a' _; simp [applyOps]
    | cons op rest ih =>
      intro a' h
      obtain ⟨hid, hnext⟩ := applyOp_alloc a' op
      have hlen : (op :: rest).length = rest.length + 1 := rfl
      have hlt : a'.next_route_id + 1 < u32Size := by
        rw [hlen] at h
        omega
      have hmod : (a'.next_route_id + 1) % u32Size = a'.next_route_id + 1 :=
        Nat.mod_eq_of_lt hlt
      have hb1 : (applyOp a' op).1.next_route_id + rest.length < u32Size := by
        rw [hnext, hmod]
        rw [hlen] at h
        omega
      obtain ⟨hids, hcnt⟩ := ih (applyOp a' op).1 hb1
      constructor
      · rw [hlen, List.range_succ_eq_map]
        simp only [applyOps, hid, hids, hnext, hmod, List.map_cons, List.map_map]
        congr 1
        apply List.map_congr_left
        intro i _
        simp only [Function.comp, Nat.succ_eq_add_one, RouteId.mk.injEq]
        omega
      · simp only [applyOps, hcnt, hnext, hmod]
        omega
  obtain ⟨hids, hcnt⟩ := key ops a hbound
  have hpair : (applyOps a ops).2.Pairwise (fun x y => x.val < y.val) := by
    rw [hids, List.pairwise_map]
    refine List.Pairwise.imp ?_ (List.pairwise_lt_range _)
    intro i j hij
    simpa using by omega
  refine ⟨hids, hcnt, hpair, ?_⟩
  exact hpair.imp (fun hlt heq => absurd (heq ▸ hlt) (lt_irrefl _))

/-- Witness for C8: from a fresh `App`, a mixed registration sequence (a
command route, an event subscription, an RPC method) allocates ids 0, 1, 2
in order, and the counter ends at 3. -/
theorem route_id_allocation_witness :
    (applyOps App.new [.addCommand "orders" "create_order" none,
        .subscribeEvent "OrderCreated", .addRpcMethod "m" none]).2
      = [⟨0⟩, ⟨1⟩, ⟨2⟩]
    ∧ (applyOps App.new [.addCommand "orders" "create_order" none,
        .subscribeEvent "OrderCreated", .addRpcMethod "m" none]).1.next_route_id = 3 :=
  ⟨(route_id_allocation App.new [.addCommand "orders" "create_order" none,
      .subscribeEvent "OrderCreated", .addRpcMethod "m" none] (by decide)).1,
   (route_id_allocation App.new [.addCommand "orders" "create_order" none,
      .subscribeEvent "OrderCreated", .addRpcMethod "m" none] (by decide)).2.1⟩

/-! ## C10 — infrastructure-path interception -/

/-- Claim C10: for an HTTP scope whose path, after trimming leading slashes,
is `openapi.json` or `docs`, `UrichAsgi::call` answers directly with the
OpenAPI document or the Swagger page — with no method check, and without
consulting the route table, the RPC tables or the installed callback (the
response is identical for any second instance `u'` agreeing only on the
`routes` metadata and document title/version, however its router, RPC state
and callback differ — so a registered route at such a path is unreachable). -/
theorem infra_path_interception (u u' : UrichAsgi) (hs : HttpScope) (body : String)
    (rest : List AsgiReceiveMessage)
    (hroutes : u'.app.routes = u.app.routes)
    (htitle : u'.openapi_title = u.openapi_title)
    (hver : u'.openapi_version = u.openapi_version) :
    (trimLeadingSlashes hs.path = "openapi.json" →
      u.call (.http hs) (.httpRequest body :: rest)
        = .ok [.httpResponseStart 200 [("Content-Type", "application/json")],
               .httpResponseBody
                 (u.app.openapi_spec u.openapi_title u.openapi_version).render false]
      ∧ u'.call (.http hs) (.httpRequest body :: rest)
        = u.call (.http hs) (.httpRequest body :: rest))
    ∧ (trimLeadingSlashes hs.path = "docs" →
      u.call (.http hs) (.httpRequest body :: rest)
        = .ok [.httpResponseStart 200 [("Content-Type", "text/html")],
               .httpResponseBody SWAGGER_UI_HTML false]
      ∧ u'.call (.http hs) (.httpRequest body :: rest)
        = u.call (.http hs) (.httpRequest body :: rest)) := by
  constructor
  · intro hpath
    constructor
    · simp [UrichAsgi.call, hpath]
    · simp [UrichAsgi.call, hpath, App.openapi_spec, hroutes, htitle, hver]
  · intro hpath
    have hcond : (("docs" : String) == "openapi.json"
        || ("/" ++ "docs" : String) == "/openapi.json") = false := by decide
    constructor
    · simp [UrichAsgi.call, hpath, hcond]
    · simp [UrichAsgi.call, hpath, hcond]

/-- Witness for C10: on the fixtures (which differ in router, RPC state and
callback but share the `routes` metadata), a `DELETE //openapi.json` request
yields the OpenAPI document and a `POST /docs` request yields the Swagger
page, identically for both instances. -/
theorem infra_path_interception_witness :
    asgiFixture.call (.http ⟨"DELETE", "//openapi.json", [], ""⟩) [.httpRequest "zz"]
      = .ok [.httpResponseStart 200 [("Content-Type", "application/json")],
             .httpResponseBody (asgiFixture.app.openapi_spec "T" "1").render false]
    ∧ asgiFixtureAlt.call (.http ⟨"DELETE", "//openapi.json", [], ""⟩) [.httpRequest "zz"]
      = asgiFixture.call (.http ⟨"DELETE", "//openapi.json", [], ""⟩) [.httpRequest "zz"]
    ∧ asgiFixture.call (.http ⟨"POST", "/docs", [], ""⟩) [.httpRequest ""]
      = .ok [.httpResponseStart 200 [("Content-Type", "text/html")],
             .httpResponseBody SWAGGER_UI_HTML false] :=
  ⟨((infra_path_interception asgiFixture asgiFixtureAlt ⟨"DELETE", "//openapi.json", [], ""⟩
      "zz" [] (by rfl) (by rfl) (by rfl)).1 (by rfl)).1,
   ((infra_path_interception asgiFixture asgiFixtureAlt ⟨"DELETE", "//openapi.json", [], ""⟩
      "zz" [] (by rfl) (by rfl) (by rfl)).1 (by rfl)).2,
   ((infra_path_interception asgiFixture asgiFixtureAlt ⟨"POST", "/docs", [], ""⟩
      "" [] (by rfl) (by rfl) (by rfl)).2 (by rfl)).1⟩

/-! ## C9 — GET query-string body substitution -/

theorem splitOnChar_ne_nil (c : Char) : ∀ cs, splitOnChar c cs ≠ []
  | [] => by simp [splitOnChar]
  | x :: xs => by
    cases hx : x == c with
    | true => simp [splitOnChar, hx]
    | false =>
      cases h : splitOnChar c xs with
      | nil => simp [splitOnChar, hx, h]
      | cons hd tl => simp [splitOnChar, hx, h]

theorem splitOnChar_head (c : Char) : ∀ cs, (splitOnChar c cs).head? = some (beforeFirst c cs)
  | [] => rfl
  | x :: xs => by
    cases hx : x == c with
    | true =>
      have hxc : x = c := by simpa using hx
      simp [splitOnChar, beforeFirst, splitFirstOn, hx, hxc]
    | false =>
      have ih := splitOnChar_head c xs
      cases h : splitOnChar c xs with
      | nil => exact absurd h (splitOnChar_ne_nil c xs)
      | cons hd tl =>
        rw [h] at ih
        simp only [List.head?] at ih
        simp [splitOnChar, hx, h, beforeFirst, splitFirstOn]
        simpa [beforeFirst] using ih

theorem splitOnChar_of_not_mem (c : Char) : ∀ cs, c ∉ cs → splitOnChar c cs = [cs]
  | [], _ => rfl
  | x :: xs, h => by
    have hxc : (x == c) = false := by
      refine beq_eq_false_iff_ne.mpr fun he => h ?_
      subst he
      exact List.mem_cons_self x xs
    have ih := splitOnChar_of_not_mem c xs (fun hc => h (List.mem_cons_of_mem x hc))
    simp [splitOnChar, hxc, ih]

theorem splitOnChar_append (c : Char) : ∀ as bs, c ∉ as →
    splitOnChar c (as ++ c :: bs) = as :: splitOnChar c bs
  | [], bs, _ => by simp [splitOnChar]
  | x :: as, bs, h => by
    have hxc : (x == c) = false := by
      refine beq_eq_false_iff_ne.mpr fun he => h ?_
      subst he
      exact List.mem_cons_self x as
    have ih := splitOnChar_append c as bs (fun hc => h (List.mem_cons_of_mem x hc))
    simp [splitOnChar, hxc, ih]

/-- Claim C9 (counterexample).  A GET request whose query string itself
contains `'?'` (legal in RFC 3986 query components) delivers the object
built from the query *truncated at the first `'?'*` — `{"a":"1"}` — not the
object the claim describes, built from the full query string,
`{"a":"1?b=2"}`: the code splits the whole URL on `'?'` and keeps only the
second segment. -/
theorem query_substitution_counterexample :
    (hyper_request_to_scope_and_body
        { method := "GET", path := "/x", query := some "a=1?b=2", headers := [], body := "wire" }).2
      = "\x7b\"a\":\"1\"\x7d"
    ∧ (queryJson ("a=1?b=2" : String).data).render = "\x7b\"a\":\"1?b=2\"\x7d"
    ∧ ("\x7b\"a\":\"1\"\x7d" : String) ≠ "\x7b\"a\":\"1?b=2\"\x7d" := by
  refine ⟨rfl, rfl, by decide⟩

/-- Claim C9 (amended): for a GET request with a query component, the body
delivered to the application is the JSON object obtained from the query
string *up to its first `'?'`*, split on `'&'` and `'='` into
whitespace-trimmed key/value pairs (empty keys dropped, missing values
becoming empty strings, later duplicate keys overwriting earlier ones); for
a GET without a query component, and for every other method, the wire body
is passed through unchanged.  (`hwf`: an HTTP request target's path contains
no `'?'`.) -/
theorem get_query_body_substitution (req : HyperRequest) (qs : String)
    (hwf : '?' ∉ req.path.data) :
    (strToUpper req.method = "GET" → req.query = some qs →
      (hyper_request_to_scope_and_body req).2 = (queryJson (beforeFirst '?' qs.data)).render)
    ∧ (strToUpper req.method = "GET" → req.query = none →
      (hyper_request_to_scope_and_body req).2 = req.body)
    ∧ (strToUpper req.method ≠ "GET" →
      (hyper_request_to_scope_and_body req).2 = req.body) := by
  refine ⟨?_, ?_, ?_⟩
  · intro hG hq
    have hurl : (req.url).data = req.path.data ++ '?' :: qs.data := by
      simp [HyperRequest.url, hq, String.data_append]
    have hsplit : (splitOnChar '?' (req.url).data).get? 1
        = some (beforeFirst '?' qs.data) := by
      rw [hurl, splitOnChar_append '?' _ _ hwf]
      have := splitOnChar_head '?' qs.data
      cases h : splitOnChar '?' qs.data with
      | nil => exact absurd h (splitOnChar_ne_nil '?' qs.data)
      | cons hd tl =>
        rw [h] at this
        simp only [List.head?] at this
        simpa using this
    rw [List.get?_eq_getElem?] at hsplit
    simp [hyper_request_to_scope_and_body, hG, hsplit]
  · intro hG hq
    have hurl : (req.url).data = req.path.data := by simp [HyperRequest.url, hq]
    have hsplit : (splitOnChar '?' (req.url).data).get? 1 = none := by
      rw [hurl, splitOnChar_of_not_mem '?' _ hwf]
      rfl
    rw [List.get?_eq_getElem?] at hsplit
    simp [hyper_request_to_scope_and_body, hG, hsplit]
  · intro hG
    have hbeq : (strToUpper req.method == "GET") = false := beq_eq_false_iff_ne.mpr hG
    simp [hyper_request_to_scope_and_body, hbeq]

/-- Witness for C9 (amended): a `GET /x?a=1&b=2` request delivers
`{"a":"1","b":"2"}`; a `GET /x` without query and a `POST /x?a=1` deliver
the wire body unchanged. -/
theorem get_query_body_substitution_witness :
    (hyper_request_to_scope_and_body
        { method := "GET", path := "/x", query := some "a=1&b=2", headers := [], body := "wire" }).2
      = "\x7b\"a\":\"1\",\"b\":\"2\"\x7d"
    ∧ (hyper_request_to_scope_and_body
        { method := "GET", path := "/x", query := none, headers := [], body := "wire" }).2
      = "wire"
    ∧ (hyper_request_to_scope_and_body
        { method := "POST", path := "/x", query := some "a=1", headers := [], body := "wire" }).2
      = "wire" :=
  ⟨(get_query_body_substitution
      { method := "GET", path := "/x", query := some "a=1&b=2", headers := [], body := "wire" }
      "a=1&b=2" (by decide)).1 (by rfl) (by rfl),
   (get_query_body_substitution
      { method := "GET", path := "/x", query := none, headers := [], body := "wire" }
      "" (by decide)).2.1 (by rfl) (by rfl),
   (get_query_body_substitution
      { method := "POST", path := "/x", query := some "a=1", headers := [], body := "wire" }
      "a=1" (by decide)).2.2 (by decide)⟩
